import Mathlib

/-!
Shallow embedding of the experiment pipeline of The-Power-of-Noise
(`src/experiments/config.py`, `src/experiments/experiment_manager.py`).

Strings are modelled as `List Char`; Python list slicing `l[:n]` becomes
`List.take`; dict lookup tables become Lean functions.
-/

set_option maxRecDepth 10000

abbrev Str := List Char

/-- Whitespace test used by the modelled normalization and by `str.strip`. -/
def isWsC (c : Char) : Bool :=
  c == ' ' || c == '\t' || c == '\n' || c == '\r'

/-- A character counts as punctuation when it is neither alphanumeric nor
whitespace (the modelled counterpart of stripping `string.punctuation`). -/
def isPuncC (c : Char) : Bool :=
  !c.isAlphanum && !isWsC c

/-- `isPrefixChars n h` is true when `n` is a prefix of `h`. -/
def isPrefixChars : List Char → List Char → Bool
  | [], _ => true
  | _ :: _, [] => false
  | a :: as, b :: bs => a == b && isPrefixChars as bs

/-- `containsSub n h` mirrors Python `n in h`: `n` occurs contiguously in `h`. -/
def containsSub (needle : List Char) : List Char → Bool
  | [] => isPrefixChars needle []
  | c :: rest => isPrefixChars needle (c :: rest) || containsSub needle rest

/-- `findSubFrom n h k` mirrors Python `h.find(n)` started with offset `k`:
the offset of the first occurrence of `n`, or `-1` when there is none. -/
def findSubFrom (needle : List Char) : List Char → Nat → Int
  | [], k => if isPrefixChars needle [] then (k : Int) else -1
  | c :: rest, k =>
      if isPrefixChars needle (c :: rest) then (k : Int)
      else findSubFrom needle rest (k + 1)

/-- Python `str.strip()`: remove leading and trailing whitespace. -/
def stripStr (s : Str) : Str :=
  ((s.dropWhile isWsC).reverse.dropWhile isWsC).reverse

/-- Answer extraction of `run_experiments` (experiment_manager.py lines
120-121): `answer_start = response.find("Answer:") + len("Answer:") if
"Answer:" in response else response.find("### Response:") +
len("### Response:")`, then `response[answer_start:].strip()`. -/
def extractAnswer (response : Str) : Str :=
  let answer_start : Int :=
    if containsSub ("Answer:".toList) response then
      findSubFrom ("Answer:".toList) response 0 + ("Answer:".toList).length
    else
      findSubFrom ("### Response:".toList) response 0 + ("### Response:".toList).length
  stripStr (response.drop answer_start.toNat)

/-- Splitting a character list into whitespace-separated words
(accumulator holds the current word reversed). -/
def wordsAux : List Char → List Char → List (List Char)
  | [], cur => if cur.isEmpty then [] else [cur.reverse]
  | c :: rest, cur =>
      if isWsC c then
        if cur.isEmpty then wordsAux rest [] else cur.reverse :: wordsAux rest []
      else
        wordsAux rest (c :: cur)

/-- Whitespace-separated words of a string, Python `s.split()`. -/
def wordsOf (s : Str) : List Str := wordsAux s []

/-- The English articles dropped by answer normalization. -/
def articleWords : List Str := ["a".toList, "an".toList, "the".toList]

/-- Modelled from the spec: the module `normalize_answers` (imported by
`experiment_manager.py` as `normalize_answer` but absent from the repository
sources) canonicalizes a string by case-folding, stripping punctuation,
dropping the articles a/an/the, and collapsing whitespace to single spaces. -/
def normalize_answer (s : Str) : Str :=
  let lowered := s.map Char.toLower
  let noPunc := lowered.filter (fun c => !isPuncC c)
  let kept := (wordsOf noPunc).filter (fun w => !(articleWords.contains w))
  List.intercalate (" ".toList) kept

/-- Modelled from the spec: `is_answer_in_text text answers` (from the absent
module `normalize_answers`) is true iff some normalized gold answer is a
substring of the normalized document text. -/
def is_answer_in_text (text : Str) (answers : List Str) : Bool :=
  answers.any (fun a => containsSub (normalize_answer a) (normalize_answer text))

/-- The grading expression of `run_experiments` (lines 124-127):
`any(normalize_answer(ans) in normalize_answer(generated_answer) for ans in
example['answers'])`. -/
def ansMatchAfterNorm (generated_answer : Str) (answers : List Str) : Bool :=
  answers.any (fun a => containsSub (normalize_answer a) (normalize_answer generated_answer))

/-- A corpus document (`{text, title, full_corpus_idx}`). -/
structure Document where
  text : Str
  title : Str
  full_corpus_idx : Nat
deriving Repr, DecidableEq

/-- An evaluation example; `idx_gold_in_corpus` is `none` when the key is
absent from the JSON record. -/
structure Example where
  example_id : Nat
  question : Str
  answers : List Str
  idx_gold_in_corpus : Option Nat
deriving Repr, DecidableEq

/-- `ExperimentConfig` (config.py lines 5-53).  `Optional[int]` fields become
`Option Nat`; path and tag fields stay `String`. -/
structure ExperimentConfig where
  llm_id : String
  model_max_length : Nat
  device : String
  batch_size : Nat
  experiment_type : String
  load_full_corpus : Bool
  use_random : Bool
  use_adore : Bool
  use_bm25 : Bool
  gold_position : Option Nat
  num_documents_in_context : Nat
  get_documents_without_answer : Bool
  num_retrieved_documents : Option Nat
  num_random_documents : Option Nat
  put_retrieved_first : Bool
  use_corpus_nonsense : Bool
  num_main_documents : Option Nat
  num_other_documents : Option Nat
  put_main_first : Bool
  use_test : Bool
  corpus_path : String
  train_data_path : String
  test_data_path : String
  contriever_results_path : String
  bm25_results_path : String
  adore_results_path : String
  random_results_path : String
  nonsense_results_path : String
  reddit_results_path : String
  output_dir : String
  save_every : Nat
deriving Repr, DecidableEq

/-- The error kind the spec calls `ConfigurationError`; the source raises
Python `ValueError` with one of three messages (config.py lines 65-76). -/
inductive ConfigurationError where
  | invalidExperimentType
  | missingMixedCounts
  | missingMultiCorpusCounts
deriving Repr, DecidableEq

/-- `ExperimentConfig.validate` (config.py lines 65-76): the three checks are
made in source order and the first failing one raises. -/
def validate (cfg : ExperimentConfig) : Except ConfigurationError Unit :=
  if cfg.experiment_type ∉ (["classic", "mixed", "multi_corpus", "only_query"] : List String) then
    Except.error ConfigurationError.invalidExperimentType
  else if cfg.experiment_type = "mixed"
      ∧ (cfg.num_retrieved_documents = none ∨ cfg.num_random_documents = none) then
    Except.error ConfigurationError.missingMixedCounts
  else if cfg.experiment_type = "multi_corpus"
      ∧ (cfg.num_main_documents = none ∨ cfg.num_other_documents = none) then
    Except.error ConfigurationError.missingMultiCorpusCounts
  else
    Except.ok ()

/-- The files `_load_data` reads (experiment_manager.py lines 30-73), in
source order: dataset, then (unless `only_query`) the corpus and the
family-specific search-result pickles. -/
def loadDataFiles (cfg : ExperimentConfig) : List String :=
  [if cfg.use_test then cfg.test_data_path else cfg.train_data_path]
  ++ (if cfg.experiment_type ≠ "only_query" then
        (if cfg.load_full_corpus then [cfg.corpus_path]
         else if cfg.use_random then ["data/processed/corpus_with_random_at60.json"]
         else if cfg.use_adore then ["data/processed/corpus_with_adore_at200.json"]
         else ["data/processed/corpus_with_contriever_at150.json"])
        ++ (if cfg.experiment_type = "classic" then
              [if cfg.use_random then cfg.random_results_path
               else if cfg.use_adore then cfg.adore_results_path
               else cfg.contriever_results_path]
            else if cfg.experiment_type = "mixed" then
              [if cfg.use_bm25 then cfg.bm25_results_path else cfg.contriever_results_path,
               cfg.random_results_path]
            else if cfg.experiment_type = "multi_corpus" then
              [if cfg.use_bm25 then cfg.bm25_results_path else cfg.contriever_results_path,
               if cfg.use_corpus_nonsense then cfg.nonsense_results_path
               else cfg.reddit_results_path]
            else [])
      else [])

/-- One observable step of `ExperimentManager.__init__`: the LLM load and
each file read of `_load_data`. -/
inductive InitStep where
  | llmInit : InitStep
  | loadFile : String → InitStep
deriving Repr, DecidableEq

/-- `ExperimentManager.__init__` (experiment_manager.py lines 15-28):
`validate` runs first; its exception propagates before the LLM is built and
before `_load_data` performs any file I/O, so an error result carries no
`InitStep`s. -/
def experimentManagerInit (cfg : ExperimentConfig) : Except ConfigurationError (List InitStep) :=
  match validate cfg with
  | Except.error e => Except.error e
  | Except.ok _ => Except.ok (InitStep.llmInit :: (loadDataFiles cfg).map InitStep.loadFile)

/-- The loaded tables held by a constructed `ExperimentManager`: the corpus
(direct integer indexing) and the per-example ranked index lists
(`table[example_id][0]` in the source). -/
structure ManagerState where
  corpus : Nat → Document
  search_results : Nat → List Nat
  retriever_results : Nat → List Nat
  random_results : Nat → List Nat
  main_results : Nat → List Nat
  other_results : Nat → List Nat

/-- Python slice `l[:n]` where `n` may be `None` (`l[:None]` is all of `l`). -/
def sliceTo (n : Option Nat) (l : List α) : List α :=
  match n with
  | none => l
  | some k => l.take k

/-- The ranked index list of `_get_classic_documents` after the optional gold
splice (experiment_manager.py lines 156-167):
`retrieved_indices[:p] + [gold_idx] + retrieved_indices[p:]`. -/
def classicRetrievedIndices (cfg : ExperimentConfig) (st : ManagerState) (ex : Example) : List Nat :=
  let retrieved_indices := st.search_results ex.example_id
  match cfg.gold_position with
  | some p =>
      retrieved_indices.take p ++ [ex.idx_gold_in_corpus.getD 0] ++ retrieved_indices.drop p
  | none => retrieved_indices

/-- The keep condition of the classic loop (line 171):
`not get_documents_without_answer or not is_answer_in_text(doc.text, answers)`. -/
def classicKeep (cfg : ExperimentConfig) (ex : Example) (d : Document) : Bool :=
  !cfg.get_documents_without_answer || !is_answer_in_text d.text ex.answers

/-- `_get_classic_documents` (lines 154-174): iterate over the FIRST
`num_documents_in_context` entries of the spliced list, keep the documents
passing `classicKeep`, and truncate the kept list to
`num_documents_in_context` again. -/
def getClassicDocuments (cfg : ExperimentConfig) (st : ManagerState) (ex : Example) : List Document :=
  let documents :=
    (((classicRetrievedIndices cfg st ex).take cfg.num_documents_in_context).map st.corpus).filter
      (classicKeep cfg ex)
  documents.take cfg.num_documents_in_context

/-- `_get_mixed_documents` (lines 176-191): requested prefixes of the
retriever and random rankings, concatenated by `put_retrieved_first`, with no
answer filtering. -/
def getMixedDocuments (cfg : ExperimentConfig) (st : ManagerState) (ex : Example) : List Document :=
  let retrieved_indices := sliceTo cfg.num_retrieved_documents (st.retriever_results ex.example_id)
  let random_indices := sliceTo cfg.num_random_documents (st.random_results ex.example_id)
  let doc_indices :=
    if cfg.put_retrieved_first then retrieved_indices ++ random_indices
    else random_indices ++ retrieved_indices
  doc_indices.map st.corpus

/-- `_get_multi_corpus_documents` (lines 193-208): symmetric to mixed with
main/other rankings and `put_main_first`. -/
def getMultiCorpusDocuments (cfg : ExperimentConfig) (st : ManagerState) (ex : Example) : List Document :=
  let main_indices := sliceTo cfg.num_main_documents (st.main_results ex.example_id)
  let other_indices := sliceTo cfg.num_other_documents (st.other_results ex.example_id)
  let doc_indices :=
    if cfg.put_main_first then main_indices ++ other_indices
    else other_indices ++ main_indices
  doc_indices.map st.corpus

/-- `_get_documents` (lines 145-152): dispatch on the family tag; everything
that is neither `classic` nor `mixed` goes to the multi-corpus branch. -/
def getDocuments (cfg : ExperimentConfig) (st : ManagerState) (ex : Example) : List Document :=
  if cfg.experiment_type = "classic" then getClassicDocuments cfg st ex
  else if cfg.experiment_type = "mixed" then getMixedDocuments cfg st ex
  else getMultiCorpusDocuments cfg st ex

/-- Python truthiness of an optional list: `None` and `[]` are falsy. -/
def optListTruthy (o : Option (List α)) : Bool :=
  match o with
  | none => false
  | some l => !l.isEmpty

/-- The Python runtime error raised inside the run loop. -/
inductive PyError where
  | typeError
deriving Repr, DecidableEq

/-- `_build_prompt` (lines 75-93).  When `documents` is truthy (a non-empty
list), line 80 executes `'\n'.join(documents)` on the list of document
DICTS — although the function's own signature annotates
`documents: List[str]` — and raises `TypeError`, so that branch never
returns.  Only the falsy branch (documents `None` or empty: the only-query
prompt of lines 82-84, plus the MPT wrapping of lines 86-91) produces a
string. -/
def buildPrompt (cfg : ExperimentConfig) (query : Str) (documents : Option (List Document)) :
    Except PyError Str :=
  if optListTruthy documents then
    Except.error PyError.typeError
  else
    let prompt :=
      ("You are given a question and you MUST respond with a short answer (max 5 tokens) based on your internal knowledge. If you do not know the answer, please respond with NO-RES.").toList
        ++ "\nQuestion: ".toList ++ query ++ "\nAnswer:".toList
    if containsSub ("mpt".toList) cfg.llm_id.toList then
      Except.ok
        (("Below is an instruction that describes a task. Write a response that appropriately completes the request.").toList
          ++ "\n".toList ++ "### Instruction:".toList ++ "\n".toList ++ prompt
          ++ "\n".toList ++ "### Response:".toList)
    else Except.ok prompt

/-- A result record of `run_experiments` (lines 100-133); `Option` fields
model keys that may be absent from the dict. -/
structure Result where
  example_id : Nat
  query : Str
  answers : List Str
  document_indices : Option (List Nat)
  gold_document_idx : Option Nat
  prompt : Str
  generated_answer : Str
  ans_match_after_norm : Bool
  ans_in_documents : Option Bool
deriving Repr, DecidableEq

/-- The body of the per-example loop of `run_experiments` (lines 100-133);
`generate` stands for `self.llm.generate([prompt], max_new_tokens=15)[0]`.
The `TypeError` raised inside `_build_prompt` (line 116 calls it with the
assembled documents) propagates and aborts the example before any record is
produced, so the generation, grading, and `ans_in_documents` steps (lines
119-133) run only when the prompt build returned. -/
def processExample (cfg : ExperimentConfig) (st : ManagerState) (generate : Str → Str)
    (ex : Example) : Except PyError Result :=
  let documents : Option (List Document) :=
    if cfg.experiment_type = "only_query" then none
    else some (getDocuments cfg st ex)
  let document_indices : Option (List Nat) :=
    documents.map (fun docs => docs.map (fun d => d.full_corpus_idx))
  let gold_document_idx : Option Nat :=
    if cfg.experiment_type = "only_query" then none else ex.idx_gold_in_corpus
  match buildPrompt cfg ex.question documents with
  | Except.error e => Except.error e
  | Except.ok prompt =>
      let response := generate prompt
      let generated_answer := extractAnswer response
      let ans_in_documents : Option Bool :=
        if optListTruthy documents then
          some ((documents.getD []).any (fun d => is_answer_in_text d.text ex.answers))
        else none
      Except.ok
        { example_id := ex.example_id
          query := ex.question
          answers := ex.answers
          document_indices := document_indices
          gold_document_idx := gold_document_idx
          prompt := prompt
          generated_answer := generated_answer
          ans_match_after_norm := ansMatchAfterNorm generated_answer ex.answers
          ans_in_documents := ans_in_documents }

/-- The dataset loop of `run_experiments` (lines 97-143): accumulate result
records in order; after appending, when `len(results) % save_every == 0`, a
checkpoint file holding the whole accumulated list is written; after the
loop a final file is always written.  An exception inside the loop aborts
the run with no further writes — the files checkpointed before it remain
(spec section 7).  The second component collects the written files as
(name suffix, contents) pairs. -/
def runLoop (cfg : ExperimentConfig) (st : ManagerState) (generate : Str → Str) :
    List Example → List Result → List (String × List Result) →
    Except PyError (List Result) × List (String × List Result)
  | [], results, saves => (Except.ok results, saves ++ [("final", results)])
  | ex :: rest, results, saves =>
      match processExample cfg st generate ex with
      | Except.error e => (Except.error e, saves)
      | Except.ok r =>
          let results' := results ++ [r]
          let saves' :=
            if results'.length % cfg.save_every == 0 then
              saves ++ [("intermediate_" ++ toString results'.length, results')]
            else saves
          runLoop cfg st generate rest results' saves'

/-- `run_experiments` (lines 95-143), returning the outcome (the complete
result list, or the propagated exception) and the sequence of persisted
files. -/
def run_experiments (cfg : ExperimentConfig) (st : ManagerState) (generate : Str → Str)
    (dataset : List Example) : Except PyError (List Result) × List (String × List Result) :=
  runLoop cfg st generate dataset [] []

/-- The field defaults of `ExperimentConfig` (config.py lines 9-53). -/
def defaultConfig : ExperimentConfig where
  llm_id := "meta-llama/Llama-2-7b-chat-hf"
  model_max_length := 4096
  device := "cuda"
  batch_size := 32
  experiment_type := "classic"
  load_full_corpus := true
  use_random := false
  use_adore := false
  use_bm25 := false
  gold_position := none
  num_documents_in_context := 7
  get_documents_without_answer := true
  num_retrieved_documents := none
  num_random_documents := none
  put_retrieved_first := false
  use_corpus_nonsense := false
  num_main_documents := none
  num_other_documents := none
  put_main_first := false
  use_test := false
  corpus_path := "data/corpus.json"
  train_data_path := "data/10k_train_dataset.json"
  test_data_path := "data/test_dataset.json"
  contriever_results_path := "data/contriever_search_results_at150.pkl"
  bm25_results_path := "data/bm25_test_search_results_at250.pkl"
  adore_results_path := "data/adore_search_results_at200.pkl"
  random_results_path := "data/10k_random_results_at60.pkl"
  nonsense_results_path := "data/nonsense_random_results.pkl"
  reddit_results_path := "data/reddit_test_random_results.pkl"
  output_dir := "experiment_results"
  save_every := 250

example : normalize_answer ("The answer is Lando Calrissian.".toList)
    = "answer is lando calrissian".toList := by decide

example : ansMatchAfterNorm ("The answer is Lando Calrissian.".toList)
    ["Lando Calrissian".toList] = true := by decide

example : ansMatchAfterNorm ("The answer is Lando Calrissian.".toList)
    ["Darth Vader".toList] = false := by decide

example : extractAnswer ("blah Answer: X Answer: Y".toList) = "X Answer: Y".toList := by decide

example : extractAnswer ("there is no marker anywhere".toList) = "marker anywhere".toList := by decide

/-! ## Claim C5: configuration validation -/

/-- Claim C5: `validate` raises a `ConfigurationError` exactly when the
experiment type is not one of the four recognized tags, or the family is
`mixed` with a missing retrieved/random count, or the family is
`multi_corpus` with a missing main/other count; and when it raises,
`ExperimentManager.__init__` fails before any data loading or file I/O (the
error result carries no `InitStep`). -/
theorem C5_validation (cfg : ExperimentConfig) :
    ((∃ e, validate cfg = Except.error e) ↔
      (cfg.experiment_type ∉ (["classic", "mixed", "multi_corpus", "only_query"] : List String)
        ∨ (cfg.experiment_type = "mixed"
            ∧ (cfg.num_retrieved_documents = none ∨ cfg.num_random_documents = none))
        ∨ (cfg.experiment_type = "multi_corpus"
            ∧ (cfg.num_main_documents = none ∨ cfg.num_other_documents = none))))
    ∧ (∀ e, validate cfg = Except.error e → experimentManagerInit cfg = Except.error e) := by
  constructor
  · simp only [validate]
    split_ifs with h1 h2 h3 <;> simp_all
  · intro e he
    simp only [experimentManagerInit, he]

/-- A mixed-family configuration with `num_random_documents` unset. -/
def cfgC5 : ExperimentConfig :=
  { defaultConfig with
      experiment_type := "mixed"
      num_retrieved_documents := some 3
      num_random_documents := none }

/-- Claim C5 witness: on `cfgC5` the manager construction fails with the
mixed-counts error and performs no init steps. -/
theorem C5_validation_witness :
    experimentManagerInit cfgC5 = Except.error ConfigurationError.missingMixedCounts :=
  (C5_validation cfgC5).2 ConfigurationError.missingMixedCounts (by rfl)

/-! ## Claim C4: mixed-family assembly -/

/-- Claim C4: for every mixed-family configuration, the assembled context
has length `min num_retrieved available + min num_random available`, and its
order is the retrieved prefix first when `put_retrieved_first` is true, else
the random prefix first, with no answer-presence filtering. -/
theorem C4_mixed_assembly (cfg : ExperimentConfig) (st : ManagerState) (ex : Example)
    (nr ns : Nat) (hr : cfg.num_retrieved_documents = some nr)
    (hs : cfg.num_random_documents = some ns) :
    (getMixedDocuments cfg st ex).length
      = min nr (st.retriever_results ex.example_id).length
        + min ns (st.random_results ex.example_id).length
    ∧ getMixedDocuments cfg st ex
      = (if cfg.put_retrieved_first then
           ((st.retriever_results ex.example_id).take nr).map st.corpus
             ++ ((st.random_results ex.example_id).take ns).map st.corpus
         else
           ((st.random_results ex.example_id).take ns).map st.corpus
             ++ ((st.retriever_results ex.example_id).take nr).map st.corpus) := by
  constructor
  · by_cases hp : cfg.put_retrieved_first
    · simp [getMixedDocuments, sliceTo, hr, hs, hp]
    · simp [getMixedDocuments, sliceTo, hr, hs, hp]
      omega
  · by_cases hp : cfg.put_retrieved_first
    · simp [getMixedDocuments, sliceTo, hr, hs, hp]
    · simp [getMixedDocuments, sliceTo, hr, hs, hp]

/-- A mixed-family configuration requesting 2 retrieved and 1 random. -/
def cfgC4 : ExperimentConfig :=
  { defaultConfig with
      experiment_type := "mixed"
      num_retrieved_documents := some 2
      num_random_documents := some 1 }

/-- Loaded tables for the C4 witness. -/
def stC4 : ManagerState where
  corpus := fun i => { text := "doc".toList, title := [], full_corpus_idx := i }
  search_results := fun _ => []
  retriever_results := fun _ => [0, 1, 2]
  random_results := fun _ => [3, 4]
  main_results := fun _ => []
  other_results := fun _ => []

/-- Example record for the C4 witness. -/
def exC4 : Example :=
  { example_id := 0, question := "q".toList, answers := ["x".toList], idx_gold_in_corpus := none }

/-- Claim C4 witness at a concrete configuration and tables. -/
theorem C4_mixed_assembly_witness :
    (getMixedDocuments cfgC4 stC4 exC4).length
      = min 2 (stC4.retriever_results exC4.example_id).length
        + min 1 (stC4.random_results exC4.example_id).length :=
  (C4_mixed_assembly cfgC4 stC4 exC4 2 1 rfl rfl).1

/-! ## Claim C3: the at-most-N bound -/

/-- A mixed-family configuration whose requested prefix counts exceed
`num_documents_in_context`. -/
def cfgC3 : ExperimentConfig :=
  { defaultConfig with
      experiment_type := "mixed"
      num_documents_in_context := 1
      num_retrieved_documents := some 1
      num_random_documents := some 1 }

/-- Loaded tables for C3: one retriever hit and one random hit. -/
def stC3 : ManagerState where
  corpus := fun i => { text := "doc".toList, title := [], full_corpus_idx := i }
  search_results := fun _ => []
  retriever_results := fun _ => [0]
  random_results := fun _ => [1]
  main_results := fun _ => []
  other_results := fun _ => []

/-- Example record for C3. -/
def exC3 : Example :=
  { example_id := 0, question := "q".toList, answers := ["x".toList], idx_gold_in_corpus := none }

/-- Claim C3 counterexample: a valid mixed configuration with
`num_documents_in_context = 1` for which the assembler returns 2 documents —
the mixed family ignores `num_documents_in_context` entirely. -/
theorem C3_counterexample :
    ¬ ((getDocuments cfgC3 stC3 exC3).length ≤ cfgC3.num_documents_in_context) := by
  decide

/-- Claim C3 amended: the at-most-`num_documents_in_context` bound holds for
the classic family only; for mixed and multi_corpus families the context
length is the sum of the two requested prefix lengths
(`min requested available` each), which is not bounded by
`num_documents_in_context`. -/
theorem C3_amended (cfg : ExperimentConfig) (st : ManagerState) (ex : Example) :
    (getClassicDocuments cfg st ex).length ≤ cfg.num_documents_in_context
    ∧ (∀ nr ns, cfg.num_retrieved_documents = some nr → cfg.num_random_documents = some ns →
        (getMixedDocuments cfg st ex).length
          = min nr (st.retriever_results ex.example_id).length
            + min ns (st.random_results ex.example_id).length)
    ∧ (∀ nm nk, cfg.num_main_documents = some nm → cfg.num_other_documents = some nk →
        (getMultiCorpusDocuments cfg st ex).length
          = min nm (st.main_results ex.example_id).length
            + min nk (st.other_results ex.example_id).length) := by
  refine ⟨?_, ?_, ?_⟩
  · exact List.length_take_le _ _
  · intro nr ns hr hs
    exact (C4_mixed_assembly cfg st ex nr ns hr hs).1
  · intro nm nk hm hk
    by_cases hp : cfg.put_main_first
    · simp [getMultiCorpusDocuments, sliceTo, hm, hk, hp]
    · simp [getMultiCorpusDocuments, sliceTo, hm, hk, hp]
      omega

/-- Claim C3 amended witness: the mixed length formula at the C3 inputs. -/
theorem C3_amended_witness :
    (getMixedDocuments cfgC3 stC3 exC3).length
      = min 1 (stC3.retriever_results exC3.example_id).length
        + min 1 (stC3.random_results exC3.example_id).length :=
  (C3_amended cfgC3 stC3 exC3).2.1 1 1 rfl rfl

/-! ## Claim C1: classic walk-and-filter semantics -/

/-- A classic configuration asking for one answer-free document. -/
def cfgC1 : ExperimentConfig :=
  { defaultConfig with
      experiment_type := "classic"
      num_documents_in_context := 1
      get_documents_without_answer := true }

/-- Tables for C1: document 0 contains the gold answer, document 1 does not;
the ranking lists document 0 first. -/
def stC1 : ManagerState where
  corpus := fun i =>
    if i == 0 then { text := "x marks the spot".toList, title := [], full_corpus_idx := 0 }
    else { text := "nothing here".toList, title := [], full_corpus_idx := i }
  search_results := fun _ => [0, 1]
  retriever_results := fun _ => []
  random_results := fun _ => []
  main_results := fun _ => []
  other_results := fun _ => []

/-- Example record for C1: the gold answer is "x". -/
def exC1 : Example :=
  { example_id := 0, question := "q".toList, answers := ["x".toList], idx_gold_in_corpus := none }

/-- Claim C1 counterexample: the ranked list holds at least
`N = num_documents_in_context = 1` documents passing the answer-exclusion
filter (document 1), yet the assembler returns 0 documents — the source
truncates the candidate list to its first N entries BEFORE filtering instead
of walking the whole list until N documents are kept. -/
theorem C1_counterexample :
    cfgC1.num_documents_in_context
        ≤ (((classicRetrievedIndices cfgC1 stC1 exC1).map stC1.corpus).filter
            (classicKeep cfgC1 exC1)).length
    ∧ (getClassicDocuments cfgC1 stC1 exC1).length ≠ cfgC1.num_documents_in_context := by
  decide

/-- Claim C1 amended: the classic assembler examines only the first
`N = num_documents_in_context` entries of the (possibly gold-spliced) ranked
list, keeps those passing the filter, and truncates to `N`; consequently
whenever the spliced list has at least `N` entries and every document among
its first `N` entries passes the filter, exactly `N` documents are returned
(with fewer possibly returned when an examined entry fails the filter, even
if entries beyond the first `N` would pass). -/
theorem C1_amended (cfg : ExperimentConfig) (st : ManagerState) (ex : Example)
    (hN : cfg.num_documents_in_context ≤ (classicRetrievedIndices cfg st ex).length)
    (hall : ∀ d ∈ ((classicRetrievedIndices cfg st ex).take cfg.num_documents_in_context).map
        st.corpus, classicKeep cfg ex d = true) :
    (getClassicDocuments cfg st ex).length = cfg.num_documents_in_context := by
  unfold getClassicDocuments
  rw [List.filter_eq_self.mpr hall]
  simp [List.length_take, List.length_map]
  omega

/-- Tables for the C1 witness: the answer-free document is ranked first. -/
def stC1w : ManagerState where
  corpus := fun i =>
    if i == 0 then { text := "x marks the spot".toList, title := [], full_corpus_idx := 0 }
    else { text := "nothing here".toList, title := [], full_corpus_idx := i }
  search_results := fun _ => [1, 0]
  retriever_results := fun _ => []
  random_results := fun _ => []
  main_results := fun _ => []
  other_results := fun _ => []

/-- Claim C1 amended witness: with the clean document ranked first, exactly
one document is returned. -/
theorem C1_amended_witness :
    (getClassicDocuments cfgC1 stC1w exC1).length = cfgC1.num_documents_in_context :=
  C1_amended cfgC1 stC1w exC1 (by decide) (by decide)

/-! ## Claim C8: gold splicing position -/

/-- A classic configuration with `gold_position = 5`. -/
def cfgC8 : ExperimentConfig :=
  { defaultConfig with
      experiment_type := "classic"
      gold_position := some 5 }

/-- Tables for C8: the ranking has only two entries. -/
def stC8 : ManagerState where
  corpus := fun i => { text := "doc".toList, title := [], full_corpus_idx := i }
  search_results := fun _ => [10, 20]
  retriever_results := fun _ => []
  random_results := fun _ => []
  main_results := fun _ => []
  other_results := fun _ => []

/-- Example record for C8 with gold corpus index 99. -/
def exC8 : Example :=
  { example_id := 0, question := "q".toList, answers := ["x".toList],
    idx_gold_in_corpus := some 99 }

/-- Claim C8 counterexample: with `gold_position = 5` and a ranked list of
length 2, the gold index 99 is appended at position 2, not inserted at
position 5 — Python slice splicing clamps the position to the list length. -/
theorem C8_counterexample :
    classicRetrievedIndices cfgC8 stC8 exC8 = [10, 20, 99]
    ∧ (classicRetrievedIndices cfgC8 stC8 exC8)[5]? ≠ some 99 := by
  decide

/-- Claim C8 amended: the gold index is inserted at position
`min gold_position (length of the ranked list)`, shifting the entries from
that position one place right (no entry replaced, length grows by one); the
stated position `gold_position` itself is only reached when it is at most
the list length. -/
theorem C8_amended (cfg : ExperimentConfig) (st : ManagerState) (ex : Example)
    (p g : Nat) (hp : cfg.gold_position = some p) (hg : ex.idx_gold_in_corpus = some g) :
    classicRetrievedIndices cfg st ex
      = (st.search_results ex.example_id).take
            (min p (st.search_results ex.example_id).length)
        ++ [g]
        ++ (st.search_results ex.example_id).drop
            (min p (st.search_results ex.example_id).length)
    ∧ (classicRetrievedIndices cfg st ex).length
        = (st.search_results ex.example_id).length + 1
    ∧ (classicRetrievedIndices cfg st ex)[min p (st.search_results ex.example_id).length]?
        = some g := by
  have hmain : classicRetrievedIndices cfg st ex
      = (st.search_results ex.example_id).take
            (min p (st.search_results ex.example_id).length)
        ++ [g]
        ++ (st.search_results ex.example_id).drop
            (min p (st.search_results ex.example_id).length) := by
    simp only [classicRetrievedIndices, hp, hg, Option.getD_some]
    rcases le_or_lt p (st.search_results ex.example_id).length with h | h
    · rw [Nat.min_eq_left h]
    · rw [Nat.min_eq_right h.le, List.take_of_length_le h.le, List.take_length,
        List.drop_of_length_le h.le, List.drop_length]
  refine ⟨hmain, ?_, ?_⟩
  · rw [hmain]
    simp [List.length_take, List.length_drop]
    omega
  · rw [hmain, List.append_assoc, List.getElem?_append_right, List.length_take]
    · simp
    · simp [List.length_take]

/-- Claim C8 amended witness: at the C8 inputs the spliced list length grows
by one. -/
theorem C8_amended_witness :
    (classicRetrievedIndices cfgC8 stC8 exC8).length
      = (stC8.search_results exC8.example_id).length + 1 :=
  (C8_amended cfgC8 stC8 exC8 5 99 rfl rfl).2.1

/-! ## Claim C9: determinism of the Context Assembler -/

/-- Claim C9: the Context Assembler is deterministic — on equal
configuration, loaded tables, and example, two runs produce equal ordered
document lists (the embedding is a pure function of these inputs; the source
draws no randomness inside `_get_documents`). -/
theorem C9_deterministic (cfg cfg' : ExperimentConfig) (st st' : ManagerState)
    (ex ex' : Example) (hc : cfg = cfg') (hst : st = st') (he : ex = ex') :
    getDocuments cfg st ex = getDocuments cfg' st' ex' := by
  subst hc
  subst hst
  subst he
  rfl

/-- A classic configuration for the C9 witness. -/
def cfgC9 : ExperimentConfig :=
  { defaultConfig with experiment_type := "classic", num_documents_in_context := 2 }

/-- Tables for the C9 witness. -/
def stC9 : ManagerState where
  corpus := fun i => { text := "fact".toList, title := [], full_corpus_idx := i }
  search_results := fun _ => [2, 0, 1]
  retriever_results := fun _ => []
  random_results := fun _ => []
  main_results := fun _ => []
  other_results := fun _ => []

/-- Example record for the C9 witness. -/
def exC9 : Example :=
  { example_id := 0, question := "q".toList, answers := ["z".toList], idx_gold_in_corpus := none }

/-- Claim C9 witness: two runs of the assembler on the same concrete inputs
agree. -/
theorem C9_deterministic_witness :
    getDocuments cfgC9 stC9 exC9 = getDocuments cfgC9 stC9 exC9 :=
  C9_deterministic cfgC9 cfgC9 stC9 stC9 exC9 exC9 rfl rfl rfl

/-! ## Claim C10: presence of result-record fields -/

/-- Projection of a loop outcome onto the produced record, if any. -/
def runRecord (o : Except PyError Result) : Option Result :=
  match o with
  | Except.ok r => some r
  | Except.error _ => none

/-- A prompt build that returned implies the document list was falsy. -/
lemma buildPrompt_ok_not_truthy (cfg : ExperimentConfig) (query : Str)
    (documents : Option (List Document)) (p : Str)
    (h : buildPrompt cfg query documents = Except.ok p) :
    optListTruthy documents = false := by
  cases hx : optListTruthy documents with
  | false => rfl
  | true => simp [buildPrompt, hx] at h

/-- In every record the run loop actually produces, `ans_in_documents` is
absent: line 129's `if documents:` block runs only after `_build_prompt`
returned, which requires a falsy (empty or `None`) document list. -/
lemma processExample_no_ans_in_documents (cfg : ExperimentConfig) (st : ManagerState)
    (generate : Str → Str) (ex : Example) (r : Result)
    (h : processExample cfg st generate ex = Except.ok r) :
    r.ans_in_documents = none := by
  simp only [processExample] at h
  split at h
  · exact absurd h (by simp)
  · rename_i prompt heq
    have hx := buildPrompt_ok_not_truthy _ _ _ _ heq
    injection h with h2
    subst h2
    simp [hx]

/-- A classic configuration whose filter removes every candidate document
(the run then completes and produces a record). -/
def cfgC10 : ExperimentConfig :=
  { defaultConfig with
      experiment_type := "classic"
      num_documents_in_context := 2
      get_documents_without_answer := true }

/-- Tables for `cfgC10`: every ranked document contains the answer. -/
def stC10 : ManagerState where
  corpus := fun i => { text := "x is the answer".toList, title := [], full_corpus_idx := i }
  search_results := fun _ => [0, 1]
  retriever_results := fun _ => []
  random_results := fun _ => []
  main_results := fun _ => []
  other_results := fun _ => []

/-- Example record for `cfgC10`. -/
def exC10 : Example :=
  { example_id := 0, question := "q".toList, answers := ["x".toList], idx_gold_in_corpus := none }

/-- The identity generator used by the C10 theorem. -/
def genC10 : Str → Str := fun s => s

/-- The C10 failing input: a classic configuration, with the filter off, for
which one document reaches the prompt builder. -/
def cfgC10b : ExperimentConfig :=
  { defaultConfig with
      experiment_type := "classic"
      num_documents_in_context := 1
      get_documents_without_answer := false }

/-- Tables for the C10 failing input. -/
def stC10b : ManagerState where
  corpus := fun i => { text := "paris is a city".toList, title := [], full_corpus_idx := i }
  search_results := fun _ => [0]
  retriever_results := fun _ => []
  random_results := fun _ => []
  main_results := fun _ => []
  other_results := fun _ => []

/-- Example record for the C10 failing input. -/
def exC10b : Example :=
  { example_id := 0, question := "q".toList, answers := ["x".toList], idx_gold_in_corpus := none }

/-- Claim C10 (code bug): the claim describes the evident intent of lines
107-113 and 129-133, but the program cannot exhibit the "present" side of
the biconditional.  Whenever the assembled document list is non-empty,
line 116 passes it to `_build_prompt`, whose line 80 `'\n'.join(documents)`
over the document dicts raises `TypeError` — contradicting the function's
own `documents: List[str]` annotation — so the run aborts before line 129
and no record is produced at all (second conjunct, at the concrete failing
input).  In the runs that do complete, the document list was empty or
`None`, so `document_indices` is present as the empty list while
`ans_in_documents` is always absent (third conjunct; the lemma
`processExample_no_ans_in_documents` states this for every produced
record). -/
theorem C10_crash_on_documents :
    getDocuments cfgC10b stC10b exC10b ≠ []
    ∧ processExample cfgC10b stC10b genC10 exC10b = Except.error PyError.typeError
    ∧ (runRecord (processExample cfgC10 stC10 genC10 exC10)).map
        (fun r => (r.document_indices, r.ans_in_documents))
      = some (some [], none) := by
  refine ⟨by decide, by rfl, by decide⟩

/-! ## Claim C2: answer extraction from the raw response -/

/-- `needle` occurs contiguously in `hay` at offset `i`. -/
def occursAt (needle hay : List Char) (i : Nat) : Prop :=
  isPrefixChars needle (hay.drop i) = true

instance (needle hay : List Char) (i : Nat) : Decidable (occursAt needle hay i) := by
  unfold occursAt
  infer_instance

/-- `containsSub` holds exactly when the needle occurs at some offset. -/
lemma containsSub_iff_occursAt (n h : List Char) :
    containsSub n h = true ↔ ∃ i, occursAt n h i := by
  induction h with
  | nil =>
      constructor
      · intro hh
        exact ⟨0, by simpa [containsSub, occursAt] using hh⟩
      · rintro ⟨i, hi⟩
        simpa [containsSub, occursAt] using hi
  | cons c t ih =>
      simp only [containsSub, Bool.or_eq_true]
      constructor
      · rintro (hp | hc)
        · exact ⟨0, by simpa [occursAt] using hp⟩
        · obtain ⟨i, hi⟩ := ih.mp hc
          exact ⟨i + 1, by simpa [occursAt, List.drop_succ_cons] using hi⟩
      · rintro ⟨i, hi⟩
        cases i with
        | zero => exact Or.inl (by simpa [occursAt] using hi)
        | succ j =>
            exact Or.inr (ih.mpr ⟨j, by simpa [occursAt, List.drop_succ_cons] using hi⟩)

/-- When the needle never occurs, `findSubFrom` returns `-1` (Python `find`). -/
lemma findSubFrom_of_not_occurs (n : List Char) :
    ∀ (h : List Char) (k : Nat), (∀ i, ¬ occursAt n h i) → findSubFrom n h k = -1 := by
  intro h
  induction h with
  | nil =>
      intro k hno
      have h0 : isPrefixChars n [] = false := by
        have := hno 0
        simpa [occursAt] using this
      simp [findSubFrom, h0]
  | cons c t ih =>
      intro k hno
      have h0 : isPrefixChars n (c :: t) = false := by
        have := hno 0
        simpa [occursAt] using this
      have hrec : ∀ i, ¬ occursAt n t i := by
        intro i hi
        exact hno (i + 1) (by simpa [occursAt, List.drop_succ_cons] using hi)
      simp [findSubFrom, h0, ih (k + 1) hrec]

/-- When `i` is the first occurrence of the needle, `findSubFrom` started at
accumulated offset `k` returns `k + i` (Python `find` returns the first
occurrence). -/
lemma findSubFrom_of_firstOccur (n : List Char) :
    ∀ (i : Nat) (h : List Char) (k : Nat),
      occursAt n h i → (∀ j, j < i → ¬ occursAt n h j) →
      findSubFrom n h k = (k : Int) + i := by
  intro i
  induction i with
  | zero =>
      intro h k hocc _
      have hp : isPrefixChars n h = true := by simpa [occursAt] using hocc
      cases h with
      | nil => simp [findSubFrom, hp]
      | cons c t => simp [findSubFrom, hp]
  | succ j ih =>
      intro h k hocc hmin
      have h0 : ¬ occursAt n h 0 := hmin 0 (Nat.succ_pos j)
      cases h with
      | nil =>
          exact absurd (by simpa [occursAt] using hocc) (by simpa [occursAt] using h0)
      | cons c t =>
          have hfalse : isPrefixChars n (c :: t) = false := by
            simpa [occursAt] using h0
          have hocc' : occursAt n t j := by
            simpa [occursAt, List.drop_succ_cons] using hocc
          have hmin' : ∀ m, m < j → ¬ occursAt n t m := by
            intro m hm hmo
            exact hmin (m + 1) (Nat.succ_lt_succ hm)
              (by simpa [occursAt, List.drop_succ_cons] using hmo)
          have hrec := ih t (k + 1) hocc' hmin'
          rw [findSubFrom, if_neg (by simp [hfalse]), hrec]
          push_cast
          ring

/-- Claim C2 counterexample: the response "there is no marker anywhere"
contains neither "Answer:" nor "### Response:", yet the extracted answer is
NOT the empty string — the source computes `find("### Response:") + 13 =
-1 + 13 = 12` and slices from offset 12, yielding "marker anywhere". -/
theorem C2_counterexample :
    containsSub ("Answer:".toList) ("there is no marker anywhere".toList) = false
    ∧ containsSub ("### Response:".toList) ("there is no marker anywhere".toList) = false
    ∧ extractAnswer ("there is no marker anywhere".toList) = "marker anywhere".toList
    ∧ extractAnswer ("there is no marker anywhere".toList) ≠ ([] : Str) := by
  decide

/-- Claim C2 amended: the extracted answer is the whitespace-stripped text
after the FIRST (not last) occurrence of "Answer:"; when "Answer:" is absent
it is the stripped text after the first occurrence of "### Response:" plus
13; and when both markers are absent it is the stripped text from offset 12
(= -1 + len("### Response:")), which is not the empty string in general. -/
theorem C2_amended (r : Str) :
    (∀ i, occursAt ("Answer:".toList) r i →
        (∀ j, j < i → ¬ occursAt ("Answer:".toList) r j) →
        extractAnswer r = stripStr (r.drop (i + 7)))
    ∧ (∀ i, containsSub ("Answer:".toList) r = false →
        occursAt ("### Response:".toList) r i →
        (∀ j, j < i → ¬ occursAt ("### Response:".toList) r j) →
        extractAnswer r = stripStr (r.drop (i + 13)))
    ∧ (containsSub ("Answer:".toList) r = false →
        containsSub ("### Response:".toList) r = false →
        extractAnswer r = stripStr (r.drop 12)) := by
  refine ⟨?_, ?_, ?_⟩
  · intro i hocc hmin
    have hc : containsSub ("Answer:".toList) r = true :=
      (containsSub_iff_occursAt _ _).mpr ⟨i, hocc⟩
    have hf := findSubFrom_of_firstOccur ("Answer:".toList) i r 0 hocc hmin
    have hlen : (("Answer:".toList).length : Int) = 7 := by decide
    simp only [extractAnswer, hc, if_true, hf, hlen]
    have harg : ((((0 : Nat) : Int)) + (i : Int) + 7).toNat = i + 7 := by omega
    rw [harg]
  · intro i hc hocc hmin
    have hf := findSubFrom_of_firstOccur ("### Response:".toList) i r 0 hocc hmin
    have hlen : (("### Response:".toList).length : Int) = 13 := by decide
    simp only [extractAnswer, hc, Bool.false_eq_true, if_false, hf, hlen]
    have harg : ((((0 : Nat) : Int)) + (i : Int) + 13).toNat = i + 13 := by omega
    rw [harg]
  · intro hc1 hc2
    have hno : ∀ i, ¬ occursAt ("### Response:".toList) r i := by
      intro i hi
      have := (containsSub_iff_occursAt ("### Response:".toList) r).mpr ⟨i, hi⟩
      rw [this] at hc2
      simp at hc2
    have hf := findSubFrom_of_not_occurs ("### Response:".toList) r 0 hno
    have hlen : (("### Response:".toList).length : Int) = 13 := by decide
    simp only [extractAnswer, hc1, Bool.false_eq_true, if_false, hf, hlen]
    have harg : ((-1 : Int) + 13).toNat = 12 := by decide
    rw [harg]

/-- Claim C2 amended witness: on "some Answer: hi" (first occurrence of
"Answer:" at offset 5) the extraction equals the stripped tail from 12. -/
theorem C2_amended_witness :
    extractAnswer ("some Answer: hi".toList)
      = stripStr (("some Answer: hi".toList).drop (5 + 7)) :=
  (C2_amended ("some Answer: hi".toList)).1 5 (by decide) (by decide)

/-! ## Claim C6: checkpointing -/

/-- A run loop that completes ends by writing the final file holding the
complete result sequence. -/
lemma runLoop_final (cfg : ExperimentConfig) (st : ManagerState) (generate : Str → Str) :
    ∀ (ds : List Example) (results : List Result) (saves : List (String × List Result))
      (rs : List Result),
      (runLoop cfg st generate ds results saves).1 = Except.ok rs →
      (runLoop cfg st generate ds results saves).2.getLast? = some ("final", rs) := by
  intro ds
  induction ds with
  | nil =>
      intro results saves rs hok
      simp [runLoop] at hok ⊢
      simp [hok]
  | cons ex rest ih =>
      intro results saves rs hok
      rcases hpe : processExample cfg st generate ex with e | r
      · simp [runLoop, hpe] at hok
      · simp only [runLoop, hpe] at hok ⊢
        exact ih _ _ rs hok

/-- Every file written by a run loop that completes holds a prefix of the
final result sequence (the accumulated list only ever grows by appending). -/
lemma runLoop_saves_extend (cfg : ExperimentConfig) (st : ManagerState) (generate : Str → Str) :
    ∀ (ds : List Example) (results : List Result) (saves : List (String × List Result))
      (rs : List Result),
      (∀ p ∈ saves, ∃ t, p.2 ++ t = results) →
      (runLoop cfg st generate ds results saves).1 = Except.ok rs →
      ∀ p ∈ (runLoop cfg st generate ds results saves).2,
        ∃ t, p.2 ++ t = rs := by
  intro ds
  induction ds with
  | nil =>
      intro results saves rs hinv hok p hp
      simp [runLoop] at hok hp
      rcases hp with h | h
      · obtain ⟨t, ht⟩ := hinv p h
        exact ⟨t, by rw [ht, hok]⟩
      · exact ⟨[], by simp [h, hok]⟩
  | cons ex rest ih =>
      intro results saves rs hinv hok p hp
      rcases hpe : processExample cfg st generate ex with e | r
      · simp [runLoop, hpe] at hok
      · simp only [runLoop, hpe] at hok hp ⊢
        refine ih _ _ rs ?_ hok p hp
        intro q hq
        by_cases hsave : (results ++ [r]).length % cfg.save_every == 0
        · rw [if_pos hsave] at hq
          rcases List.mem_append.mp hq with h | h
          · obtain ⟨t, ht⟩ := hinv q h
            exact ⟨t ++ [r], by rw [← List.append_assoc, ht]⟩
          · rw [List.mem_singleton] at h
            subst h
            exact ⟨[], List.append_nil _⟩
        · rw [if_neg hsave] at hq
          obtain ⟨t, ht⟩ := hinv q hq
          exact ⟨t ++ [r], by rw [← List.append_assoc, ht]⟩

/-- Claim C6: in a run that completes, every checkpoint file holds the full
in-order result prefix accumulated at the moment it is written, and a final
file with the complete sequence is always written last, regardless of the
modulus; in particular with `save_every = 2` and a 5-example dataset exactly
3 files are written (after examples 2 and 4, and the final file), the
intermediate ones being strict prefixes of the final sequence.  (A run that
raises inside the loop aborts with only the files already checkpointed, per
spec section 7.) -/
theorem C6_checkpointing (cfg : ExperimentConfig) (st : ManagerState)
    (generate : Str → Str) (dataset : List Example) :
    (∀ rs, (run_experiments cfg st generate dataset).1 = Except.ok rs →
        (run_experiments cfg st generate dataset).2.getLast? = some ("final", rs))
    ∧ (∀ rs, (run_experiments cfg st generate dataset).1 = Except.ok rs →
        ∀ p ∈ (run_experiments cfg st generate dataset).2, rs.take p.2.length = p.2)
    ∧ (cfg.save_every = 2 → dataset.length = 5 →
        ∀ rs, (run_experiments cfg st generate dataset).1 = Except.ok rs →
          (run_experiments cfg st generate dataset).2.length = 3
          ∧ ∀ p ∈ (run_experiments cfg st generate dataset).2.dropLast,
              p.2.length < rs.length) := by
  refine ⟨?_, ?_, ?_⟩
  · intro rs hok
    exact runLoop_final cfg st generate dataset [] [] rs hok
  · intro rs hok p hp
    obtain ⟨t, ht⟩ :=
      runLoop_saves_extend cfg st generate dataset [] [] rs (by simp) hok p hp
    rw [← ht, List.take_left]
  · intro h2 h5 rs hok
    rcases dataset with _ | ⟨a, rest⟩
    · simp at h5
    rcases rest with _ | ⟨b, rest⟩
    · simp at h5
    rcases rest with _ | ⟨c, rest⟩
    · simp at h5
    rcases rest with _ | ⟨d, rest⟩
    · simp at h5
    rcases rest with _ | ⟨e, rest⟩
    · simp at h5
    rcases rest with _ | ⟨f, rest⟩
    swap
    · simp at h5
    rcases hA : processExample cfg st generate a with eA | rA
    · simp [run_experiments, runLoop, hA, h2] at hok
    rcases hB : processExample cfg st generate b with eB | rB
    · simp [run_experiments, runLoop, hA, hB, h2] at hok
    rcases hC : processExample cfg st generate c with eC | rC
    · simp [run_experiments, runLoop, hA, hB, hC, h2] at hok
    rcases hD : processExample cfg st generate d with eD | rD
    · simp [run_experiments, runLoop, hA, hB, hC, hD, h2] at hok
    rcases hE : processExample cfg st generate e with eE | rE
    · simp [run_experiments, runLoop, hA, hB, hC, hD, hE, h2] at hok
    have hok' : [rA, rB, rC, rD, rE] = rs := by
      simpa [run_experiments, runLoop, hA, hB, hC, hD, hE, h2] using hok
    subst hok'
    simp [run_experiments, runLoop, hA, hB, hC, hD, hE, h2]

/-- An only-query configuration with `save_every = 2` for the C6 witness. -/
def cfgC6 : ExperimentConfig :=
  { defaultConfig with experiment_type := "only_query", save_every := 2 }

/-- Empty tables for the C6 witness (the only-query family reads none). -/
def stC6 : ManagerState where
  corpus := fun i => { text := [], title := [], full_corpus_idx := i }
  search_results := fun _ => []
  retriever_results := fun _ => []
  random_results := fun _ => []
  main_results := fun _ => []
  other_results := fun _ => []

/-- The n-th example of the C6 witness dataset. -/
def exC6 (n : Nat) : Example :=
  { example_id := n, question := "q".toList, answers := ["z".toList], idx_gold_in_corpus := none }

/-- A 5-example dataset for the C6 witness. -/
def datasetC6 : List Example := [exC6 0, exC6 1, exC6 2, exC6 3, exC6 4]

/-- The trivial generator of the C6 witness. -/
def genC6 : Str → Str := fun _ => []

/-- The result sequence of the C6 witness run (an only-query run, which
completes). -/
def resultsC6 : List Result :=
  match (run_experiments cfgC6 stC6 genC6 datasetC6).1 with
  | Except.ok rs => rs
  | Except.error _ => []

/-- Claim C6 witness: with `save_every = 2` and 5 examples the completed run
writes exactly 3 files. -/
theorem C6_checkpointing_witness :
    (run_experiments cfgC6 stC6 genC6 datasetC6).2.length = 3 :=
  ((C6_checkpointing cfgC6 stC6 genC6 datasetC6).2.2 rfl rfl resultsC6 (by rfl)).1

/-! ## Claim C7: normalized-substring grading -/

/-- Claim C7: `ans_match_after_norm` is true exactly when some gold answer,
normalized, is a substring of the normalized generated text; concretely it is
true for generated text "The answer is Lando Calrissian." against gold
"Lando Calrissian" and false against gold "Darth Vader"; and every record the
run loop produces carries the field computed with exactly this predicate. -/
theorem C7_grading :
    (∀ (g : Str) (answers : List Str),
        ansMatchAfterNorm g answers = true
          ↔ ∃ a ∈ answers, containsSub (normalize_answer a) (normalize_answer g) = true)
    ∧ ansMatchAfterNorm ("The answer is Lando Calrissian.".toList)
        ["Lando Calrissian".toList] = true
    ∧ ansMatchAfterNorm ("The answer is Lando Calrissian.".toList)
        ["Darth Vader".toList] = false
    ∧ (∀ (cfg : ExperimentConfig) (st : ManagerState) (generate : Str → Str) (ex : Example)
        (r : Result), processExample cfg st generate ex = Except.ok r →
          r.ans_match_after_norm = ansMatchAfterNorm r.generated_answer ex.answers) := by
  refine ⟨?_, by decide, by decide, ?_⟩
  · intro g answers
    simp [ansMatchAfterNorm, List.any_eq_true]
  · intro cfg st generate ex r hr
    simp only [processExample] at hr
    split at hr
    · exact absurd hr (by simp)
    · injection hr with h2
      subst h2
      rfl

/-- An only-query configuration for the C7 witness. -/
def cfgC7 : ExperimentConfig :=
  { defaultConfig with experiment_type := "only_query" }

/-- Empty tables for the C7 witness. -/
def stC7 : ManagerState where
  corpus := fun i => { text := [], title := [], full_corpus_idx := i }
  search_results := fun _ => []
  retriever_results := fun _ => []
  random_results := fun _ => []
  main_results := fun _ => []
  other_results := fun _ => []

/-- Example record for the C7 witness. -/
def exC7 : Example :=
  { example_id := 0, question := "Who flew the Falcon?".toList,
    answers := ["Lando Calrissian".toList], idx_gold_in_corpus := none }

/-- A generator answering with the Lando sentence for the C7 witness. -/
def genC7 : Str → Str := fun _ => "Answer: The answer is Lando Calrissian.".toList

/-- A fallback record (never reached by the C7 witness run). -/
def emptyResult : Result :=
  { example_id := 0, query := [], answers := [], document_indices := none,
    gold_document_idx := none, prompt := [], generated_answer := [],
    ans_match_after_norm := false, ans_in_documents := none }

/-- The record the C7 witness run produces. -/
def resultC7 : Result :=
  match processExample cfgC7 stC7 genC7 exC7 with
  | Except.ok r => r
  | Except.error _ => emptyResult

/-- Claim C7 witness: the produced record carries the grading predicate. -/
theorem C7_grading_witness :
    resultC7.ans_match_after_norm
      = ansMatchAfterNorm resultC7.generated_answer exC7.answers :=
  C7_grading.2.2.2 cfgC7 stC7 genC7 exC7 resultC7 (by rfl)
